import Mathlib

/-!
Shallow embedding of `app.py` (a WhatsApp expenses bot): category catalog,
session and ledger stores, time-window resolution, amount parsing, the
remote-mirror fetch policy and the webhook message router, together with
theorems checking the specification's claims against this embedding.

Monetary amounts are modelled in integer cents (hundredths of USD): every
amount the program stores or reports is the result of `round(x, 2)` or of
sums of such values, so the fixed-point representation is exact; Python
`float` arithmetic on these short decimals is thereby modelled exactly, and
`normalize_amount`'s rounding to two decimals becomes rounding to an
integer number of cents.
-/

set_option maxRecDepth 100000

namespace App

/-- Wall-clock (civil) date-time in a fixed zone, as produced by
`datetime.now(TZ)`.  Sub-second precision is dropped: the embedded code
truncates or never inspects it. -/
structure Civil where
  year : Int
  month : Int
  day : Int
  hour : Int
  minute : Int
  second : Int
deriving DecidableEq

/-- Days since 1970-01-01 of a proleptic-Gregorian civil date (the standard
`days_from_civil` algorithm); models the calendar underlying
`datetime.timestamp()`. -/
def daysFromCivil (y m d : Int) : Int :=
  let y2 := if m ≤ 2 then y - 1 else y
  let era := (if 0 ≤ y2 then y2 else y2 - 399) / 400
  let yoe := y2 - era * 400
  let mp := (m + 9) % 12
  let doy := (153 * mp + 2) / 5 + d - 1
  let doe := yoe * 365 + yoe / 4 - yoe / 100 + doy
  era * 146097 + doe - 719468

/-- Inverse of `daysFromCivil` (the standard `civil_from_days` algorithm);
used for `datetime - timedelta(days=n)`, which is wall-clock arithmetic on
an aware datetime. -/
def civilFromDays (z0 : Int) : Int × Int × Int :=
  let z := z0 + 719468
  let era := (if 0 ≤ z then z else z - 146096) / 146097
  let doe := z - era * 146097
  let yoe := (doe - doe / 1460 + doe / 36524 - doe / 146096) / 365
  let y := yoe + era * 400
  let doy := doe - (365 * yoe + yoe / 4 - yoe / 100)
  let mp := (5 * doy + 2) / 153
  let d := doy - (153 * mp + 2) / 5 + 1
  let m := mp + (if mp < 10 then 3 else -9)
  (if m ≤ 2 then y + 1 else y, m, d)

/-- Seconds of a civil instant read as if it were UTC (naive part). -/
def civilSecsNaive (c : Civil) : Int :=
  daysFromCivil c.year c.month c.day * 86400
    + c.hour * 3600 + c.minute * 60 + c.second

/-- Epoch seconds of a civil instant in a zone whose UTC offset in seconds at
that instant is `ofs c` (for America/New_York: -18000 under EST, -14400 under
EDT).  Models `int(aware_datetime.timestamp())`. -/
def toEpoch (ofs : Civil → Int) (c : Civil) : Int :=
  civilSecsNaive c - ofs c

/-- Shift a civil date-time by `n` days, keeping the time of day; models
`datetime ± timedelta(days=n)` wall-clock arithmetic. -/
def addDaysCivil (c : Civil) (n : Int) : Civil :=
  let t := civilFromDays (daysFromCivil c.year c.month c.day + n)
  { c with year := t.1, month := t.2.1, day := t.2.2 }

/-- Two-digit zero padding for month numbers (`strftime` `%m`). -/
def pad2 (n : Int) : String :=
  if n < 10 then "0" ++ toString n else toString n

/-- `f"Mes actual ({start_ny.strftime('%Y-%m')})"`. -/
def monthLabel (c : Civil) : String :=
  "Mes actual (" ++ toString c.year ++ "-" ++ pad2 c.month ++ ")"

/-- `f"Últimos {n_days} días"`. -/
def lastDaysLabel (n : Int) : String :=
  "Últimos " ++ toString n ++ " días"

/-- `month_bounds_epoch_ny` (app.py lines 305-315): start = current month with
`day=1, hour=0, minute=0, second=0`; end = same instant of the next month,
with the December case rolling the year forward; both converted with
`timestamp()`. -/
def month_bounds_epoch_ny (ofs : Civil → Int) (now_ny : Civil) :
    Int × Int × String :=
  let start_ny : Civil :=
    { now_ny with day := 1, hour := 0, minute := 0, second := 0 }
  let next_month_ny : Civil :=
    if start_ny.month = 12 then
      { start_ny with year := start_ny.year + 1, month := 1 }
    else
      { start_ny with month := start_ny.month + 1 }
  (toEpoch ofs start_ny, toEpoch ofs next_month_ny, monthLabel start_ny)

/-- `last_n_days_bounds_epoch_ny` (app.py lines 317-323): start is `now` minus
`n` days (wall clock), end is `now`; microseconds were already dropped by the
`Civil` model. -/
def last_n_days_bounds_epoch_ny (ofs : Civil → Int) (now_ny : Civil)
    (n_days : Int) : Int × Int × String :=
  let start_ny := addDaysCivil now_ny (-n_days)
  (toEpoch ofs start_ny, toEpoch ofs now_ny, lastDaysLabel n_days)

/-- The fixed category catalog `CATEGORIES` (app.py lines 109-118), in
insertion order. -/
def CATEGORIES : List (String × String) :=
  [("1", "Renta"), ("2", "Credit card bill"), ("3", "Medical bill"),
   ("4", "Utility bill"), ("5", "Car payment"), ("6", "Restaurante"),
   ("7", "Groceries & housekeeping"), ("8", "Traveling")]

/-- `p in CATEGORIES` (membership in the dict's keys). -/
def isCatKey (k : String) : Bool := (CATEGORIES.lookup k).isSome

def digitsVal (l : List Char) : Nat :=
  l.foldl (fun a c => a * 10 + (c.toNat - 48)) 0

/-- `int(s)` on the decimal strings the code applies it to. -/
def pyInt (s : String) : Int :=
  match s.data with
  | '-' :: ds => -(digitsVal ds : Int)
  | ds => (digitsVal ds : Int)

/-- Python's `str.lower()` (ASCII range; every command keyword is ASCII). -/
def lowerStr (s : String) : String := ⟨s.data.map Char.toLower⟩

def isWsChar (c : Char) : Bool :=
  c = ' ' ∨ c = '\t' ∨ c = '\n' ∨ c = '\r'

/-- Python's `str.strip()`. -/
def stripStr (s : String) : String :=
  ⟨((s.data.dropWhile isWsChar).reverse.dropWhile isWsChar).reverse⟩

def leadsWithList : List Char → List Char → Bool
  | _, [] => true
  | [], _ :: _ => false
  | a :: as, b :: bs => a = b && leadsWithList as bs

/-- Python's `str.startswith(t)`. -/
def leadsWith (s t : String) : Bool := leadsWithList s.data t.data

/-- Python's `s[:n]`. -/
def strTake (s : String) (n : Nat) : String := ⟨s.data.take n⟩

/-- A row of the `expenses` table; `amount` in cents. -/
structure ExpenseRow where
  user : String
  amount : Int
  category_id : Int
  category_name : String
  ts_utc : String
  ts_epoch : Int
deriving DecidableEq

/-- A row of the `deposits` table; `amount` in cents. -/
structure DepositRow where
  user : String
  amount : Int
  source : String
  ts_utc : String
  ts_epoch : Int
deriving DecidableEq

/-- A row of the `sessions` table (the user is the association-list key). -/
structure SessionRow where
  state : String
  amount : Option Int
deriving DecidableEq

/-- The SQLite database: one sessions table keyed by user, and the append-only
expenses and deposits tables. -/
structure Db where
  sessions : List (String × SessionRow)
  expenses : List ExpenseRow
  deposits : List DepositRow
deriving DecidableEq

def dbEmpty : Db := { sessions := [], expenses := [], deposits := [] }

/-- `get_session` (app.py lines 123-134): select, inserting an `idle` row when
the user has none; returns the session together with the updated database. -/
def get_session (db : Db) (u : String) : SessionRow × Db :=
  match db.sessions.lookup u with
  | some s => (s, db)
  | none =>
    let s : SessionRow := { state := "idle", amount := none }
    (s, { db with sessions := db.sessions ++ [(u, s)] })

/-- `set_session` (app.py lines 136-144): upsert on the session row. -/
def set_session (db : Db) (u st : String) (a : Option Int) : Db :=
  { db with sessions :=
      if (db.sessions.lookup u).isSome then
        db.sessions.map (fun p => if p.1 = u then (u, ⟨st, a⟩) else p)
      else
        db.sessions ++ [(u, ⟨st, a⟩)] }

/-- `reset_session` (app.py lines 146-147). -/
def reset_session (db : Db) (u : String) : Db :=
  set_session db u "idle" none

/-- `save_expense` (app.py lines 256-267): appends a row stamped with the
current UTC instant, stored both as ISO text and epoch seconds derived from
the same `now`. -/
def save_expense (nowIso : String) (nowEpoch : Int) (db : Db) (u : String)
    (amount : Int) (category_id : String) (category_name : String) : Db :=
  { db with expenses := db.expenses ++
      [{ user := u, amount := amount, category_id := pyInt category_id,
         category_name := category_name, ts_utc := nowIso,
         ts_epoch := nowEpoch }] }

/-- `save_deposit` (app.py lines 270-281). -/
def save_deposit (nowIso : String) (nowEpoch : Int) (db : Db) (u : String)
    (amount : Int) (source : String) : Db :=
  { db with deposits := db.deposits ++
      [{ user := u, amount := amount, source := source, ts_utc := nowIso,
         ts_epoch := nowEpoch }] }

/-- The half-open range predicate `ts_epoch >= start AND ts_epoch < end` used
by every aggregation query. -/
def inRange (ts s e : Int) : Bool := decide (s ≤ ts) && decide (ts < e)

/-- `get_income_total_in_range` (app.py lines 326-336). -/
def get_income_total_in_range (db : Db) (u : String) (s e : Int) : Int :=
  ((db.deposits.filter
      (fun r => r.user == u && inRange r.ts_epoch s e)).map
    (fun r => r.amount)).sum

/-- `get_total_for_category_in_range` (app.py lines 339-352). -/
def get_total_for_category_in_range (db : Db) (u : String) (cat : String)
    (s e : Int) : Int :=
  ((db.expenses.filter
      (fun r => r.user == u && r.category_id == pyInt cat
        && inRange r.ts_epoch s e)).map
    (fun r => r.amount)).sum

/-- `get_totals_all_categories_in_range` (app.py lines 354-369): one summed
entry per catalog key, in catalog order, zero when no row matches. -/
def get_totals_all_categories_in_range (db : Db) (u : String) (s e : Int) :
    List (String × Int) :=
  CATEGORIES.map (fun p => (p.1, get_total_for_category_in_range db u p.1 s e))

def pad2nat (n : Nat) : String :=
  if n < 10 then "0" ++ toString n else toString n

/-- `f"{x:.2f}"` on an amount held in cents: the two-decimal rendering is
exact, no further rounding occurs. -/
def fmt2 (c : Int) : String :=
  let a := c.natAbs
  (if c < 0 then "-" else "") ++ toString (a / 100) ++ "." ++ pad2nat (a % 100)

def spaces (n : Nat) : String := String.mk (List.replicate n ' ')

/-- `f"{s:<n}"`: left-justify in a field of `n` characters. -/
def padRightStr (n : Nat) (s : String) : String := s ++ spaces (n - s.length)

/-- `f"{s:>n}"`: right-justify in a field of `n` characters. -/
def padLeftStr (n : Nat) (s : String) : String := spaces (n - s.length) ++ s

/-- `totals_dict.get(k, 0.0)`. -/
def lookupD (l : List (String × Int)) (k : String) (d : Int) : Int :=
  (l.lookup k).getD d

/-- `format_totals_table` (app.py lines 371-382): fixed header, one row per
catalog id in ascending id order, and an appended grand-total row; returns
the lines and the grand total. -/
def format_totals_table (totals : List (String × Int)) : List String × Int :=
  let keysSorted := CATEGORIES.map (fun p => p.1)
  let rows := keysSorted.map (fun cid =>
    cid ++ ". " ++ padRightStr 18 (strTake ((CATEGORIES.lookup cid).getD "") 18)
      ++ " $" ++ padLeftStr 10 (fmt2 (lookupD totals cid 0)))
  let grand := (keysSorted.map (fun cid => lookupD totals cid 0)).sum
  (["Categoría            Total (USD)", "------------------- ----------"]
     ++ rows
     ++ ["------------------- ----------",
         "TOTAL GENERAL        $" ++ padLeftStr 10 (fmt2 grand)],
   grand)

/-- `text.replace(",", ".")` in `normalize_amount`. -/
def commaToDot (s : String) : String :=
  String.mk (s.data.map (fun ch => if ch = ',' then '.' else ch))

/-- Greedy match of `\d*\.?\d+` (with backtracking) at the head of the input,
as Python `re` behaves: a maximal digit run, optionally followed by a dot and
a further maximal digit run; the dot is kept only when digits follow it, and
the whole match fails when it would contain no digit at all. -/
def numericAt (l : List Char) : Option (List Char) :=
  let ds := l.takeWhile Char.isDigit
  let rest := l.drop ds.length
  match rest with
  | '.' :: r2 =>
    let fs := r2.takeWhile Char.isDigit
    if fs.isEmpty then (if ds.isEmpty then none else some ds)
    else some (ds ++ '.' :: fs)
  | _ => if ds.isEmpty then none else some ds

/-- Try the full pattern `[-+]?\d*\.?\d+` at the head of the input. -/
def tokenAt (l : List Char) : Option (List Char) :=
  match l with
  | [] => none
  | c :: rest =>
    if c = '-' ∨ c = '+' then (numericAt rest).map (fun t => c :: t)
    else numericAt l

/-- `re.search`: the leftmost match of the pattern. -/
def searchToken : List Char → Option (List Char)
  | [] => none
  | c :: rest =>
    match tokenAt (c :: rest) with
    | some t => some t
    | none => searchToken rest

/-- Round half-to-even of the nonnegative fraction `n / d` (`d > 0`);
models Python's banker's rounding on the exact value. -/
def roundHalfEvenNat (n d : Nat) : Nat :=
  let q := n / d
  let r := n % d
  if 2 * r < d then q
  else if d < 2 * r then q + 1
  else if q % 2 = 0 then q else q + 1

/-- `round(float(m.group()), 2)` of a matched numeric token, in cents: the
token's exact value is `sign * (ip + fp / 10^k)`; the two-decimal rounding
is computed on the magnitude (half-even is symmetric about zero). -/
def tokenCents (t : List Char) : Int :=
  let sb : Bool × List Char :=
    match t with
    | '-' :: r => (true, r)
    | '+' :: r => (false, r)
    | _ => (false, t)
  let ip := sb.2.takeWhile Char.isDigit
  let fp : List Char :=
    match sb.2.drop ip.length with
    | '.' :: r => r
    | _ => []
  let d := 10 ^ fp.length
  let mag := roundHalfEvenNat (digitsVal ip * 100 * d + digitsVal fp * 100) d
  if sb.1 then -(mag : Int) else (mag : Int)

/-- `normalize_amount` (app.py lines 389-397): replace `,` by `.`, search the
first numeric token, round its value to 2 decimals (here: to cents); `None`
when no token is found (the `ValueError` arm is unreachable for a matched
token). -/
def normalize_amount (text : String) : Option Int :=
  ((searchToken (commaToDot text).data).map tokenCents)

/-- The query parameters of a `summary` or `balance` request to the Apps
Script mirror.  For `summary`, `handle_resumen` sends no `user` parameter
while `fetch_totals_from_sheets` always sends one. -/
structure SummaryQuery where
  user : Option String
  start_e : Int
  end_e : Int
  category_id : Option Int
deriving DecidableEq

/-- A syntactically well-formed JSON reply of the mirror's `summary` action. -/
structure SummaryPayload where
  ok : Bool
  totals : List (String × Int)
deriving DecidableEq

/-- A syntactically well-formed JSON reply of the mirror's `balance` action. -/
structure BalancePayload where
  ok : Bool
  expenses_total : Int
  incomes_total : Int
deriving DecidableEq

/-- The external world of one webhook invocation: mirror configuration and
responses (`none` models an HTTP error, timeout or malformed JSON), the
deliverability of the interactive category list, the reference-zone clock and
UTC-offset function, and the UTC stamp used for writes. -/
structure Env where
  configured : Bool
  summaryResp : SummaryQuery → Option SummaryPayload
  balanceResp : SummaryQuery → Option BalancePayload
  listDeliverable : Bool
  ofs : Civil → Int
  now_ny : Civil
  nowEpochUtc : Int
  nowIsoUtc : String

/-- `fetch_totals_from_sheets` (app.py lines 464-491): `None` when the mirror
is not configured, the request fails, the JSON is malformed or `ok` is
falsy; otherwise `data.get("totals", {})` verbatim (possibly empty). -/
def fetch_totals_from_sheets (env : Env) (u : String) (s e : Int)
    (category_id : Option Int) : Option (List (String × Int)) :=
  if env.configured then
    match env.summaryResp
        { user := some u, start_e := s, end_e := e,
          category_id := category_id } with
    | none => none
    | some p => if p.ok then some p.totals else none
  else none

/-- `fetch_balance_from_sheets` (app.py lines 493-511): the payload when the
request succeeds with a truthy `ok`; `None` otherwise. -/
def fetch_balance_from_sheets (env : Env) (u : String) (s e : Int) :
    Option BalancePayload :=
  if env.configured then
    match env.balanceResp
        { user := some u, start_e := s, end_e := e, category_id := none } with
    | none => none
    | some p => if p.ok then some p else none
  else none

/-- The query `handle_resumen` sends: the sentinel all-time window and no
user or category parameter (`action=summary&start_e=0&end_e=9999999999`). -/
def allTimeQuery : SummaryQuery :=
  { user := none, start_e := 0, end_e := 9999999999, category_id := none }

/-- Stable insertion step for the descending-by-amount ordering of
`sorted(..., key=lambda x: -x[1])`. -/
def insertDesc (x : String × Int) : List (String × Int) → List (String × Int)
  | [] => [x]
  | y :: ys => if y.2 < x.2 then x :: y :: ys else y :: insertDesc x ys

/-- Stable sort, descending by amount (agrees with Python's stable `sorted`
under the key `-amount`). -/
def sortDesc (l : List (String × Int)) : List (String × Int) :=
  l.foldr insertDesc []

/-- The body rendered by `handle_resumen` on a good mirror reply (app.py
lines 533-546): header line, one bullet per mirror entry in descending-amount
order, and the accumulated grand total. -/
def renderAllTime (totals : List (String × Int)) : String :=
  let rows := sortDesc totals
  let lines :=
    ["🧮 *Resumen general de todos los gastos:*"]
      ++ rows.map (fun p =>
          "• " ++ ((CATEGORIES.lookup p.1).getD ("Cat " ++ p.1))
            ++ ": $" ++ fmt2 p.2)
  let grand := (rows.map (fun p => p.2)).sum
  String.intercalate "\n" (lines ++ ["\nTotal general: $" ++ fmt2 grand])

/-- `handle_resumen` (app.py lines 514-549): the zero-argument, all-rows
summary.  It consults only the mirror over the sentinel window; every failure
mode yields an error text (the interpolated exception/payload details are
abstracted to fixed suffixes), never a local-store fallback. -/
def handle_resumen (env : Env) : String :=
  if env.configured then
    match env.summaryResp allTimeQuery with
    | none => "⚠️ No pude generar el resumen: error"
    | some p =>
      if p.ok then renderAllTime p.totals
      else "⚠️ Error leyendo resumen: not ok"
  else "⚠️ Falta GOOGLE_APPS_SCRIPT_URL en .env"

/-- An outbound delivery: a plain text or the interactive category list. -/
inductive Msg where
  | text (dest body : String)
  | categoryList (dest : String)
deriving DecidableEq

def resetHelpText : String :=
  "🔄 Sesión reiniciada.\nPuedes empezar de nuevo escribiendo: *ingresar gasto*.\n\nComandos útiles:\n- *resumen* (todas las entradas)\n- *resumen mes*\n- *resumen 7* | *resumen 15* | *resumen 30*\n- *resumen <cat>* o *resumen <cat> 7|15|30|mes*"

/-- The `estado` diagnostic text; the Python float repr of the pending amount
is abstracted by the two-decimal rendering. -/
def estadoText (s : SessionRow) : String :=
  "🧭 Estado actual: " ++ s.state ++ "\nMonto en memoria: "
    ++ (match s.amount with | none => "—" | some a => fmt2 a)

def balanceText (label : String) (inc exp bal : Int) : String :=
  "📘 *Saldo (" ++ label ++ ")*\nIngresos: $" ++ fmt2 inc
    ++ "\nGastos:   $" ++ fmt2 exp ++ "\n──────────────\n*Balance:* $"
    ++ fmt2 bal

def resumenFooter : String :=
  "\n\nPuedes usar:\n- resumen 7 | 15 | 30\n- resumen mes\n- resumen <cat>\n- resumen <cat> 7 | 15 | 30 | mes"

def resumenCatText (name label : String) (total : Int) : String :=
  "📊 Resumen de *" ++ name ++ "* (" ++ label ++ "):\nTotal: $"
    ++ fmt2 total ++ resumenFooter

def resumenTableText (label : String) (tableLines : List String)
    (grand : Int) : String :=
  "📊 Resumen (" ++ label ++ "):\n\n" ++ String.intercalate "\n" tableLines
    ++ "\n\nTotal general: $" ++ fmt2 grand
    ++ "\n\nUsa:\n- resumen 7 | 15 | 30\n- resumen mes\n- resumen <cat>\n- resumen <cat> 7 | 15 | 30 | mes"

def amountInvalidText : String :=
  "El valor no parece válido. Intenta de nuevo (ej: 12.75)."

def amountRegisteredText (a : Int) : String :=
  "Perfecto. Monto registrado: $" ++ fmt2 a ++ "."

def plainMenuText : String :=
  "No pude enviar la lista interactiva.\nEscribe un número del 1 al 8:\n1. Renta\n2. Credit card bill\n3. Medical bill\n4. Utility bill\n5. Car payment\n6. Restaurante\n7. Groceries & housekeeping\n8. Traveling"

def incomeAmountInvalidText : String :=
  "El monto no parece válido. Intenta de nuevo (ej: 1200.00)."

def askIncomeSourceText : String :=
  "¿Cuál es el *origen* del ingreso?\nEjemplos: Salario, Transferencia, Reembolso, Extra."

def incomeRegisteredText (a : Int) : String :=
  "Perfecto. Ingreso: $" ++ fmt2 a ++ ".\n" ++ askIncomeSourceText

def invalidCategoryText : String :=
  "Respuesta inválida. Elige una opción de la lista o escribe un número del 1 al 8."

def expenseSavedText (amount : Int) (cid name : String)
    (month_total : Int) : String :=
  "✅ Gasto guardado:\n- Monto: $" ++ fmt2 amount ++ "\n- Categoría: " ++ cid
    ++ ". " ++ name ++ "\n\n📊 Total del mes en *" ++ name ++ "*: $"
    ++ fmt2 month_total
    ++ "\n\nComandos útiles:\n- *resumen* (todas las entradas)\n- *resumen mes*\n- *resumen 7* | *resumen 15* | *resumen 30*\n- *resumen <cat>* o *resumen <cat> 7|15|30|mes*\nEscribe *ingresar gasto* para capturar otro."

def incomeSourceInvalidText : String :=
  "Por favor escribe un origen válido (ej: Salario, Transferencia)."

def incomeSavedText (amount : Int) (source : String) : String :=
  "✅ Ingreso guardado:\n- Monto: $" ++ fmt2 amount ++ "\n- Origen: " ++ source
    ++ "\n\nComandos útiles:\n- *saldo mes* | *saldo 7* | *saldo 30*\n- *resumen* / *resumen mes* (gastos)\n- *ingresar ingreso* / *ingresar gasto*"

def askAmountText : String :=
  "Ok, vamos a ingresar un gasto. 💸\nDime el **valor del gasto en USD** (ej: 25.50)."

def askIncomeAmountText : String :=
  "Vamos a registrar un *ingreso*. 💵\nDime el **monto en USD** (ej: 1200.00)."

def helpText : String :=
  "Hola 👋\nPara registrar un gasto, escribe: *ingresar gasto*.\n\nPara ver totales, escribe: *resumen* (todas las entradas), *resumen mes*, *resumen 30*, *resumen 7*, *resumen 15*, o *resumen <cat>* (1–8).\nComandos: *reset*, *estado*"

/-- Accumulator pass for `splitWs`. -/
def wordsAux : List Char → List Char → List String
  | [], acc => if acc.isEmpty then [] else [⟨acc.reverse⟩]
  | c :: rest, acc =>
    if isWsChar c then
      if acc.isEmpty then wordsAux rest []
      else (⟨acc.reverse⟩ : String) :: wordsAux rest []
    else wordsAux rest (c :: acc)

/-- Python `str.split()`: split on whitespace runs, dropping empty pieces. -/
def splitWs (s : String) : List String := wordsAux s.data []

/-- The webhook function's loop-carried locals that the dedented balance
block reads.  `none` at the outer level models an unassigned Python local
(reading it raises `UnboundLocalError`); `days` is itself optional once
assigned because the code assigns it `None`. -/
structure Locals where
  use_month : Option Bool
  days : Option (Option Int)
deriving DecidableEq

/-- Fresh locals at webhook entry: nothing assigned yet. -/
def localsInit : Locals := { use_month := none, days := none }

/-- How handling one inbound event ends: normally, or with a Python
exception that propagates out of the webhook handler. -/
inductive Outcome where
  | ok
  | exn (msg : String)
deriving DecidableEq

/-- The triple produced by `parse_sender_and_message` for one entry:
`user = none` models a missing sender (or a parse failure). -/
structure Entry where
  user : Option String
  text : String
  reply_id : Option String
deriving DecidableEq

structure StepOut where
  db : Db
  sent : List Msg
  loc : Locals
  outcome : Outcome
deriving DecidableEq

/-- The total a windowed `resumen <cat>` reports (app.py lines 655-662):
the mirror value verbatim when `fetch_totals_from_sheets` yields a truthy
(non-empty) dict, else the local SQLite sum. -/
def windowedCategoryTotal (env : Env) (db : Db) (u cat : String)
    (s e : Int) : Int :=
  match fetch_totals_from_sheets env u s e (some (pyInt cat)) with
  | some ts =>
    if ts.isEmpty then get_total_for_category_in_range db u cat s e
    else (ts.lookup (toString (pyInt cat))).getD 0
  | none => get_total_for_category_in_range db u cat s e

/-- The table a windowed bare `resumen` reports (app.py lines 675-682):
rendered from the mirror totals verbatim when truthy, else from the local
all-category sums. -/
def windowedAllTable (env : Env) (db : Db) (u : String) (s e : Int) :
    List String × Int :=
  match fetch_totals_from_sheets env u s e none with
  | some ts =>
    if ts.isEmpty then
      format_totals_table (get_totals_all_categories_in_range db u s e)
    else format_totals_table ts
  | none => format_totals_table (get_totals_all_categories_in_range db u s e)

/-- Argument resolution of the `resumen` command for one or more arguments
(app.py lines 616-644): returns `(category, days, use_month)`. -/
def resumenArgs (args : List String) : Option String × Option Int × Bool :=
  match args with
  | [] => (none, none, true)
  | [p1] =>
    if p1 = "mes" then (none, none, true)
    else if p1 = "7" ∨ p1 = "15" ∨ p1 = "30" then (none, some (pyInt p1), false)
    else if isCatKey p1 then (some p1, none, true)
    else (none, none, true)
  | p1 :: p2 :: _ =>
    if isCatKey p1 then
      if p2 = "mes" then (some p1, none, true)
      else if p2 = "7" ∨ p2 = "15" ∨ p2 = "30" then
        (some p1, some (pyInt p2), false)
      else (some p1, none, true)
    else if p1 = "7" ∨ p1 = "15" ∨ p1 = "30" then (none, some (pyInt p1), false)
    else if p1 = "mes" then (none, none, true)
    else (none, none, true)

/-- Window selection shared by the `resumen` branch and the balance block
(app.py lines 646-652 and 710-715): month when `use_month`, last-n-days when
`days` is truthy, month otherwise. -/
def selectWindow (env : Env) (um : Bool) (d : Option Int) :
    Int × Int × String :=
  if um then month_bounds_epoch_ny env.ofs env.now_ny
  else
    match d with
    | some n =>
      if n = 0 then month_bounds_epoch_ny env.ofs env.now_ny
      else last_n_days_bounds_epoch_ny env.ofs env.now_ny n
    | none => month_bounds_epoch_ny env.ofs env.now_ny

/-- The `resumen` branch (app.py lines 601-694).  The plain one-word form
delegates to `handle_resumen`; the argument forms resolve a category and a
window, then report from the mirror with local fallback.  The branch
reassigns the loop-carried `category`/`days`/`use_month` locals. -/
def resumenBranch (env : Env) (db : Db) (u lowered : String) (loc : Locals) :
    StepOut :=
  let parts := splitWs lowered
  if parts.length = 1 then
    { db := db, sent := [Msg.text u (handle_resumen env)], loc := loc,
      outcome := .ok }
  else
    let r := resumenArgs (parts.drop 1)
    let category := r.1
    let daysv := r.2.1
    let use_monthv := r.2.2
    let loc2 : Locals := { use_month := some use_monthv, days := some daysv }
    let w := selectWindow env use_monthv daysv
    let s := w.1
    let e := w.2.1
    let label := w.2.2
    match category with
    | some cat =>
      let total := windowedCategoryTotal env db u cat s e
      { db := db,
        sent := [Msg.text u
          (resumenCatText ((CATEGORIES.lookup cat).getD "") label total)],
        loc := loc2, outcome := .ok }
    | none =>
      let t := windowedAllTable env db u s e
      { db := db,
        sent := [Msg.text u (resumenTableText label t.1 t.2)],
        loc := loc2, outcome := .ok }

/-- The `saldo` argument parse (app.py lines 696-708), which only assigns the
loop-carried locals; the window selection and balance reporting that follow
it in the source sit OUTSIDE the `saldo` conditional. -/
def saldoParse (lowered : String) (loc : Locals) : Locals :=
  if leadsWith lowered "saldo" then
    let parts := (splitWs lowered).drop 1
    match parts with
    | [] => { use_month := some true, days := some none }
    | p1 :: _ =>
      if p1 = "mes" then { use_month := some true, days := some none }
      else if p1 = "7" ∨ p1 = "15" ∨ p1 = "30" then
        { use_month := some false, days := some (some (pyInt p1)) }
      else { use_month := some true, days := some none }
  else loc

/-- The dedented balance block (app.py lines 710-736).  It runs for every
event that matched no earlier branch: it reads the possibly-unassigned
`use_month`/`days` locals (raising `UnboundLocalError` when unassigned),
selects a window, fetches the mirror balance with local fallback, and sends
the balance message. -/
def balanceBlock (env : Env) (db : Db) (u : String) (loc : Locals) : StepOut :=
  match loc.use_month with
  | none =>
    { db := db, sent := [], loc := loc,
      outcome := .exn "UnboundLocalError: use_month" }
  | some um =>
    if um = false ∧ loc.days = none then
      { db := db, sent := [], loc := loc,
        outcome := .exn "UnboundLocalError: days" }
    else
      let w := selectWindow env um (loc.days.getD none)
      let s := w.1
      let e := w.2.1
      let label := w.2.2
      let totals : Int × Int :=
        match fetch_balance_from_sheets env u s e with
        | some p => (p.expenses_total, p.incomes_total)
        | none =>
          (((get_totals_all_categories_in_range db u s e).map
              (fun q => q.2)).sum,
           get_income_total_in_range db u s e)
      let exp_total := totals.1
      let inc_total := totals.2
      { db := db,
        sent := [Msg.text u
          (balanceText label inc_total exp_total (inc_total - exp_total))],
        loc := loc, outcome := .ok }

/-- One iteration of the webhook's entry loop for an event with a sender
(app.py lines 567-736).  After the reset, estado and resumen branches, the
`saldo` conditional only parses arguments; the window-selection and balance
code runs unconditionally and ends in `continue`, so the flow-start triggers
and the state-machine branches at lines 738-878 are unreachable. -/
def handleEvent (env : Env) (db : Db) (loc : Locals) (u text : String) :
    StepOut :=
  let g := get_session db u
  let db1 := g.2
  let lowered := lowerStr (stripStr text)
  if lowered = "reset" ∨ lowered = "reiniciar" ∨ lowered = "cancel"
      ∨ lowered = "cancelar" then
    { db := reset_session db1 u, sent := [Msg.text u resetHelpText],
      loc := loc, outcome := .ok }
  else if lowered = "estado" then
    let g2 := get_session db1 u
    { db := g2.2, sent := [Msg.text u (estadoText g2.1)], loc := loc,
      outcome := .ok }
  else if leadsWith lowered "resumen" then
    resumenBranch env db1 u lowered loc
  else
    balanceBlock env db1 u (saldoParse lowered loc)

/-- The webhook POST handler's loop over parsed entries (app.py lines
562-570 plus the per-event handling): entries without a sender are skipped,
locals persist across iterations, and an uncaught exception aborts the
remaining batch (there is no try/except around the loop body). -/
def webhookGo (env : Env) : Db → Locals → List Entry → Db × List Msg × Outcome
  | db, _, [] => (db, [], .ok)
  | db, loc, ev :: rest =>
    match ev.user with
    | none => webhookGo env db loc rest
    | some u =>
      if u = "" then webhookGo env db loc rest
      else
        let r := handleEvent env db loc u ev.text
        match r.outcome with
        | .ok =>
          let rec2 := webhookGo env r.db r.loc rest
          (rec2.1, r.sent ++ rec2.2.1, rec2.2.2)
        | .exn m => (r.db, r.sent, .exn m)

/-- The result of one webhook POST: final database, messages sent in order,
and whether an exception escaped to Flask. -/
structure RunResult where
  db : Db
  sent : List Msg
  outcome : Outcome
deriving DecidableEq

/-- `webhook` (app.py lines 562-736): process a batch of parsed entries with
freshly-unassigned function locals. -/
def webhook (env : Env) (entries : List Entry) (db : Db) : RunResult :=
  let r := webhookGo env db localsInit entries
  { db := r.1, sent := r.2.1, outcome := r.2.2 }

structure BranchResult where
  db : Db
  sent : List Msg
deriving DecidableEq

/-- The expense flow-start branch (app.py lines 744-747), unreachable in the
shipped control flow but present in the source. -/
def expenseTriggerBranch (db : Db) (u : String) : BranchResult :=
  { db := set_session db u "awaiting_amount" none,
    sent := [Msg.text u askAmountText] }

/-- The income flow-start branch (app.py lines 738-741). -/
def incomeTriggerBranch (db : Db) (u : String) : BranchResult :=
  { db := set_session db u "awaiting_income_amount" none,
    sent := [Msg.text u askIncomeAmountText] }

/-- The `awaiting_amount` branch (app.py lines 750-767): reprompt on an
unparseable or non-positive amount, otherwise store the pending amount, move
to `awaiting_category` and present the category choices (with a plain-text
fallback when the interactive list is undeliverable). -/
def awaitingAmountBranch (env : Env) (db : Db) (u text : String) :
    BranchResult :=
  match normalize_amount text with
  | none => { db := db, sent := [Msg.text u amountInvalidText] }
  | some amount =>
    if amount ≤ 0 then { db := db, sent := [Msg.text u amountInvalidText] }
    else
      { db := set_session db u "awaiting_category" (some amount),
        sent := [Msg.text u (amountRegisteredText amount)] ++
          (if env.listDeliverable then [Msg.categoryList u]
           else [Msg.text u plainMenuText]) }

/-- The `awaiting_income_amount` branch (app.py lines 770-777). -/
def awaitingIncomeAmountBranch (db : Db) (u text : String) : BranchResult :=
  match normalize_amount text with
  | none => { db := db, sent := [Msg.text u incomeAmountInvalidText] }
  | some amount =>
    if amount ≤ 0 then
      { db := db, sent := [Msg.text u incomeAmountInvalidText] }
    else
      { db := set_session db u "awaiting_income_source" (some amount),
        sent := [Msg.text u (incomeRegisteredText amount)] }

/-- The `awaiting_category` branch (app.py lines 780-836): a choice resolves
through a non-empty selection reply id or the typed text; on a valid id the
pending amount (`float(sess2["amount"] or 0.0)`) is written as an expense,
the month-to-date total for the category is reported and the session resets;
otherwise the user is reprompted and the category list re-presented. -/
def awaitingCategoryBranch (env : Env) (db : Db) (u lowered : String)
    (reply_id : Option String) : BranchResult :=
  let ridOk :=
    match reply_id with
    | some r => r ≠ "" && isCatKey r
    | none => false
  let chosen : Option String :=
    if ridOk then reply_id
    else if isCatKey lowered then some lowered else none
  match chosen with
  | some cid =>
    let g := get_session db u
    let amount := (g.1.amount).getD 0
    let category_name := (CATEGORIES.lookup cid).getD ""
    let db2 := save_expense env.nowIsoUtc env.nowEpochUtc g.2 u amount cid
      category_name
    let mw := month_bounds_epoch_ny env.ofs env.now_ny
    let month_total := windowedCategoryTotal env db2 u cid mw.1 mw.2.1
    { db := reset_session db2 u,
      sent := [Msg.text u
        (expenseSavedText amount cid category_name month_total)] }
  | none =>
    { db := db,
      sent := [Msg.text u invalidCategoryText, Msg.categoryList u] }

/-- The `awaiting_income_source` branch (app.py lines 839-868). -/
def awaitingIncomeSourceBranch (env : Env) (db : Db) (u text : String) :
    BranchResult :=
  let source := stripStr text
  if source.length < 2 then
    { db := db, sent := [Msg.text u incomeSourceInvalidText] }
  else
    let g := get_session db u
    let amount := (g.1.amount).getD 0
    let db2 := save_deposit env.nowIsoUtc env.nowEpochUtc g.2 u amount source
    { db := reset_session db2 u,
      sent := [Msg.text u (incomeSavedText amount source)] }

/-- Modelled from the spec: the Remote Ledger Mirror's `summary` endpoint
(the Apps Script service is not part of src/; §6 gives its contract).  It
stores transaction rows for all users and returns `ok` with per-category
totals of the rows selected by the query: filtered to the query's user when
one is present — and across every user when none is — and by the half-open
window and optional category. -/
def mirrorSummaryModel (rows : List ExpenseRow) (q : SummaryQuery) :
    Option SummaryPayload :=
  some
    { ok := true,
      totals := CATEGORIES.map (fun p =>
        (p.1,
         ((rows.filter (fun r =>
             (match q.user with
              | some u => r.user == u
              | none => true)
             && inRange r.ts_epoch q.start_e q.end_e
             && (match q.category_id with
                 | some c => r.category_id == c
                 | none => true)
             && r.category_id == pyInt p.1)).map
            (fun r => r.amount)).sum)) }

/-- America/New_York offset on the concrete winter instants used below
(EST, UTC-5). -/
def estOfs : Civil → Int := fun _ => -18000

def novNow : Civil := ⟨2025, 11, 15, 10, 0, 0⟩

def decNow : Civil := ⟨2025, 12, 15, 12, 0, 0⟩

/-- A concrete environment with the mirror unconfigured. -/
def envOff : Env :=
  { configured := false, summaryResp := fun _ => none,
    balanceResp := fun _ => none, listDeliverable := true, ofs := estOfs,
    now_ny := novNow, nowEpochUtc := 1763218800,
    nowIsoUtc := "2025-11-15T15:00:00+00:00" }

/-- A concrete environment whose mirror answers every summary query with a
well-formed `ok` payload carrying an empty totals map. -/
def emptyOkPayload : SummaryPayload := { ok := true, totals := [] }

def envMirrorEmpty : Env :=
  { envOff with
      configured := true
      summaryResp := fun _ => some emptyOkPayload }

/-- A database whose only content is a user parked in `awaiting_category`
with a pending amount of $12.50. -/
def db4 : Db :=
  { sessions := [("444", ⟨"awaiting_category", some 1250⟩)],
    expenses := [], deposits := [] }

/-- A database with one local expense of $10.00 in category 3 inside the
November 2025 month window. -/
def db3 : Db :=
  { sessions := [],
    expenses := [⟨"u5", 1000, 3, "Medical bill",
      "2025-11-01T12:00:00+00:00", 1762000000⟩],
    deposits := [] }

def db6a : Db :=
  { sessions := [],
    expenses := [⟨"u6", 1000, 1, "Renta", "2020-01-01T00:00:00+00:00", 100⟩],
    deposits := [] }

def db6b : Db :=
  { sessions := [],
    expenses := [⟨"u6", 2000, 1, "Renta", "2020-01-01T00:00:00+00:00", 100⟩],
    deposits := [] }

/-- The remote mirror's stored rows in the C10 scenario: only alice's
expense. -/
def rows1 : List ExpenseRow :=
  [⟨"alice", 500, 1, "Renta", "2020-01-01T00:00:00+00:00", 100⟩]

/-- The same mirror rows after bob also records an expense; alice's rows are
untouched. -/
def rows2 : List ExpenseRow :=
  rows1 ++ [⟨"bob", 700, 1, "Renta", "2020-01-01T00:00:00+00:00", 200⟩]

/-- A configured environment whose mirror behaves as the spec-modelled
summary endpoint over the given stored rows. -/
def envMirror (rows : List ExpenseRow) : Env :=
  { envOff with
      configured := true
      summaryResp := mirrorSummaryModel rows }

/-- Spec-side (§4.2's words): the first instant of the reference instant's
civil month at 00:00:00. -/
def firstOfMonthSpec (c : Civil) : Civil := ⟨c.year, c.month, 1, 0, 0, 0⟩

/-- Spec-side (§4.2's words): the first instant of the following civil
month, with December rolling over to January of the following year. -/
def firstOfNextMonthSpec (c : Civil) : Civil :=
  if c.month = 12 then ⟨c.year + 1, 1, 1, 0, 0, 0⟩
  else ⟨c.year, c.month + 1, 1, 0, 0, 0⟩

/-- The session invariant of the expense flow: a session parked in
`awaiting_category` carries a positive pending amount (the completion path
reads exactly `amount.getD 0`, modelling `sess2["amount"] or 0.0`). -/
def SessionInvRow (s : SessionRow) : Prop :=
  s.state = "awaiting_category" → 0 < s.amount.getD 0

/-- All stored sessions satisfy the invariant. -/
def SessionInv (db : Db) : Prop := ∀ p ∈ db.sessions, SessionInvRow p.2

instance (s : SessionRow) : Decidable (SessionInvRow s) := by
  unfold SessionInvRow
  infer_instance

instance (db : Db) : Decidable (SessionInv db) := by
  unfold SessionInv
  exact List.decidableBAll _ _

theorem mem_of_lookup_eq_some {α : Type} [DecidableEq α] {β : Type}
    {l : List (α × β)} {a : α} {b : β} (h : l.lookup a = some b) :
    (a, b) ∈ l := by
  induction l with
  | nil => simp [List.lookup] at h
  | cons hd tl ih =>
    rw [List.lookup] at h
    split at h
    · rename_i heq
      cases h
      have ha : a = hd.1 := eq_of_beq heq
      rw [ha]
      exact List.mem_cons_self _ _
    · exact List.mem_cons_of_mem _ (ih h)

theorem sessionInvRow_idle : SessionInvRow ⟨"idle", none⟩ := by
  intro h
  exact absurd h (by decide)

theorem sessionInv_set (db : Db) (u st : String) (a : Option Int)
    (hrow : SessionInvRow ⟨st, a⟩) (hdb : SessionInv db) :
    SessionInv (set_session db u st a) := by
  intro p hp
  unfold set_session at hp
  dsimp only at hp
  split at hp
  · rcases List.mem_map.mp hp with ⟨q, hq, hpq⟩
    by_cases hqu : q.1 = u
    · rw [if_pos hqu] at hpq
      rw [← hpq]
      exact hrow
    · rw [if_neg hqu] at hpq
      rw [← hpq]
      exact hdb q hq
  · rcases List.mem_append.mp hp with h | h
    · exact hdb p h
    · rw [List.mem_singleton.mp h]
      exact hrow

theorem sessionInv_reset (db : Db) (u : String) (hdb : SessionInv db) :
    SessionInv (reset_session db u) :=
  sessionInv_set db u "idle" none sessionInvRow_idle hdb

theorem sessionInv_get (db : Db) (u : String) (hdb : SessionInv db) :
    SessionInv (get_session db u).2 := by
  unfold get_session
  cases h : db.sessions.lookup u with
  | some s => exact hdb
  | none =>
    intro p hp
    dsimp only at hp
    rcases List.mem_append.mp hp with h2 | h2
    · exact hdb p h2
    · rw [List.mem_singleton.mp h2]
      exact sessionInvRow_idle

theorem sessionInv_save_expense (iso : String) (ep : Int) (db : Db)
    (u : String) (a : Int) (cid nm : String) (hdb : SessionInv db) :
    SessionInv (save_expense iso ep db u a cid nm) :=
  fun p hp => hdb p hp

theorem sessionInv_save_deposit (iso : String) (ep : Int) (db : Db)
    (u : String) (a : Int) (src : String) (hdb : SessionInv db) :
    SessionInv (save_deposit iso ep db u a src) :=
  fun p hp => hdb p hp

/-- C1: the claim — an inbound message whose lowercased text does not start
with `saldo` (and that matched no earlier interrupt or summary branch) must
not run the balance window-selection/computation and must not emit a balance
message.  The code violates it: the window-selection and balance block is
dedented out of the `saldo` conditional, so the non-`saldo` text "hola"
still enters it — emitting a balance message when a prior event of the same
batch bound the loop locals, and raising `UnboundLocalError` from inside the
block on a fresh invocation. -/
theorem c1_balance_block_unguarded :
    leadsWith (lowerStr (stripStr "hola")) "saldo" = false
  ∧ (webhook envOff
      [⟨some "111", "saldo", none⟩, ⟨some "222", "hola", none⟩] dbEmpty).sent
      = [Msg.text "111" (balanceText "Mes actual (2025-11)" 0 0 0),
         Msg.text "222" (balanceText "Mes actual (2025-11)" 0 0 0)]
  ∧ (webhook envOff [⟨some "999", "hola", none⟩] dbEmpty).outcome
      = .exn "UnboundLocalError: use_month" :=
  ⟨by decide, by decide, by decide⟩

/-- C2: the claim — handling an event with a sender never raises an
unhandled exception to the webhook's caller, and the batch continues past a
failing event.  The code violates it: a plain non-command text reaches the
dedented balance block with the `use_month` local unassigned, the resulting
`UnboundLocalError` escapes the handler (no try/except wraps the loop), and
the following `reset` event of the same batch is never processed. -/
theorem c2_unhandled_exception_escapes :
    (webhook envOff [⟨some "333", "hola", none⟩] dbEmpty).outcome
      = .exn "UnboundLocalError: use_month"
  ∧ (webhook envOff
      [⟨some "333", "hola", none⟩, ⟨some "555", "reset", none⟩] dbEmpty).sent
      = []
  ∧ (webhook envOff [⟨none, "anything", none⟩, ⟨some "555", "reset", none⟩]
      dbEmpty).sent = [Msg.text "555" resetHelpText] :=
  ⟨by decide, by decide, by decide⟩

/-- C4: the claim — from `awaiting_category`, a message that resolves to no
valid catalog id leaves the session and pending amount unchanged, writes no
expense, and reprompts with the category choices.  On the shipped control
flow the invalid reply "9" instead falls into the dedented balance block and
raises (session and ledger indeed untouched, but no reprompt is sent); the
in-source `awaiting_category` branch, which the dedent makes unreachable,
implements exactly the claimed reprompt behaviour. -/
theorem c4_invalid_category_no_reprompt :
    webhook envOff [⟨some "444", "9", none⟩] db4 =
      { db := db4, sent := [],
        outcome := .exn "UnboundLocalError: use_month" }
  ∧ awaitingCategoryBranch envOff db4 "444" "9" none =
      { db := db4,
        sent := [Msg.text "444" invalidCategoryText,
                 Msg.categoryList "444"] } :=
  ⟨by decide, by decide⟩

/-- C5 counterexample: the claim says amount parsing returns `None` when the
parsed result is non-positive, but `normalize_amount` returns the value
itself — `some 0` for "0" and `some (-5.00)` for "-5" (amounts in cents);
the non-positive rejection lives in the callers, not in the parser. -/
theorem c5_counterexample_nonpositive_not_none :
    normalize_amount "0" = some 0 ∧ normalize_amount "-5" = some (-500) :=
  ⟨by decide, by decide⟩

/-- C5 amended: `,` and `.` are interchangeable decimal separators — parsing
any string equals parsing its comma-to-dot normalisation, and "25,50" and
"25.50" both yield 25.50 (2550 cents) — and the parser returns `None`
exactly when no numeric token is found; a non-positive parsed value is
returned as-is (`some 0` for "0"), its rejection being performed by the
callers (`amount is None or amount <= 0`). -/
theorem c5_amount_parsing_amended :
    (∀ s : String, normalize_amount s = normalize_amount (commaToDot s))
  ∧ normalize_amount "25,50" = some 2550
  ∧ normalize_amount "25.50" = some 2550
  ∧ (∀ s : String, searchToken (commaToDot s).data = none →
      normalize_amount s = none)
  ∧ normalize_amount "0" = some 0 := by
  have hidem : ∀ s : String, commaToDot (commaToDot s) = commaToDot s := by
    intro s
    unfold commaToDot
    simp only [List.map_map]
    congr 1
    apply List.map_congr_left
    intro c _
    by_cases hc : c = ','
    · simp [hc, Function.comp]
    · simp [hc, Function.comp]
  refine ⟨?_, by decide, by decide, ?_, by decide⟩
  · intro s
    unfold normalize_amount
    rw [hidem s]
  · intro s h
    unfold normalize_amount
    rw [h]
    rfl

/-- C5 witness: the amended theorem applied at "12,5" and at the tokenless
"xyz". -/
theorem c5_amount_parsing_amended_witness :
    normalize_amount "xyz" = none
  ∧ normalize_amount "12,5" = normalize_amount (commaToDot "12,5") :=
  ⟨c5_amount_parsing_amended.2.2.2.1 "xyz" (by decide),
   c5_amount_parsing_amended.1 "12,5"⟩

/-- C7: for every reference instant and offset function, the month window's
start is the epoch of the first instant of the current civil month at
00:00:00 in the reference zone, its end is the epoch of the first instant of
the following civil month with the December case rolling the year forward
(no off-by-one), and the interval is half-open: the range predicate used by
every aggregation query holds exactly on `start ≤ ts < end`. -/
theorem c7_month_window :
    ∀ (ofs : Civil → Int) (now : Civil),
      (month_bounds_epoch_ny ofs now).1 = toEpoch ofs (firstOfMonthSpec now)
    ∧ (month_bounds_epoch_ny ofs now).2.1
        = toEpoch ofs (firstOfNextMonthSpec now)
    ∧ (now.month = 12 →
        (firstOfNextMonthSpec now).year = now.year + 1
        ∧ (firstOfNextMonthSpec now).month = 1)
    ∧ (now.month ≠ 12 →
        (firstOfNextMonthSpec now).year = now.year
        ∧ (firstOfNextMonthSpec now).month = now.month + 1)
    ∧ (∀ ts : Int,
        inRange ts (month_bounds_epoch_ny ofs now).1
            (month_bounds_epoch_ny ofs now).2.1 = true
          ↔ (month_bounds_epoch_ny ofs now).1 ≤ ts
            ∧ ts < (month_bounds_epoch_ny ofs now).2.1) := by
  intro ofs now
  refine ⟨rfl, rfl, ?_, ?_, ?_⟩
  · intro h
    unfold firstOfNextMonthSpec
    rw [if_pos h]
    exact ⟨rfl, rfl⟩
  · intro h
    unfold firstOfNextMonthSpec
    rw [if_neg h]
    exact ⟨rfl, rfl⟩
  · intro ts
    unfold inRange
    simp

/-- C7 witness: at a concrete December 2025 reference instant under EST the
bounds are the real epochs of 2025-12-01 00:00 EST and 2026-01-01 00:00 EST,
and the theorem's rollover clause yields January of the following year. -/
theorem c7_month_window_witness :
    month_bounds_epoch_ny estOfs decNow
      = (1764565200, 1767243600, "Mes actual (2025-12)")
  ∧ decNow.month = 12
  ∧ (firstOfNextMonthSpec decNow).year = decNow.year + 1
  ∧ (firstOfNextMonthSpec decNow).month = 1 := by
  refine ⟨by decide, by decide, ?_, ?_⟩
  · exact ((c7_month_window estOfs decNow).2.2.1 (by decide)).1
  · exact ((c7_month_window estOfs decNow).2.2.1 (by decide)).2

/-- C8: for every database, user and window, the all-category totals contain
exactly one entry per catalog id (in catalog order, hence zero-filled
entries exist even for inactive categories), and the grand total appended by
the table renderer equals the sum of those per-category values. -/
theorem c8_totals_complete_and_grand_total :
    ∀ (db : Db) (u : String) (s e : Int),
      (get_totals_all_categories_in_range db u s e).map Prod.fst
        = CATEGORIES.map Prod.fst
    ∧ (∀ p ∈ CATEGORIES,
        ((get_totals_all_categories_in_range db u s e).lookup p.1).isSome
          = true)
    ∧ (format_totals_table (get_totals_all_categories_in_range db u s e)).2
        = ((get_totals_all_categories_in_range db u s e).map Prod.snd).sum
    ∧ (format_totals_table
        (get_totals_all_categories_in_range db u s e)).1.getLast?
        = some ("TOTAL GENERAL        $" ++ padLeftStr 10 (fmt2
            (((get_totals_all_categories_in_range db u s e).map
              Prod.snd).sum))) := by
  intro db u s e
  refine ⟨rfl, ?_, rfl, rfl⟩
  intro p hp
  fin_cases hp <;> rfl

/-- C8 witness: the completeness clause applied at category "6" over a
concrete database. -/
theorem c8_totals_witness :
    ((get_totals_all_categories_in_range db3 "u5" 0 9999999999).lookup
      "6").isSome = true :=
  (c8_totals_complete_and_grand_total db3 "u5" 0 9999999999).2.1
    ("6", "Restaurante") (by decide)

/-- C3 counterexample: the mirror answers the windowed `resumen 3` request
with a well-formed `ok` payload whose totals map is empty; the claim demands
the mirror totals verbatim (0.00 for category 3), but the code's truthiness
test `if totals:` treats the empty dict as a failure and reports the local
total $10.00 instead. -/
theorem c3_counterexample_empty_mirror_payload :
    fetch_totals_from_sheets envMirrorEmpty "u5" 1761973200 1764565200
      (some 3) = some []
  ∧ (webhook envMirrorEmpty [⟨some "u5", "resumen 3", none⟩] db3).sent
      = [Msg.text "u5"
          (resumenCatText "Medical bill" "Mes actual (2025-11)" 1000)]
  ∧ get_total_for_category_in_range db3 "u5" "3" 1761973200 1764565200 = 1000
  ∧ (([] : List (String × Int)).lookup "3").getD 0 = 0
  ∧ decide ((1000 : Int) = 0) = false :=
  ⟨by decide, by decide, by decide, by decide, by decide⟩

/-- C3 amended: for every windowed totals request, when the mirror responds
successfully with a well-formed payload whose totals map is truthy
(non-empty), the reported totals are the mirror's verbatim and the local
store is not consulted; when the fetch fails (unreachable, error, malformed,
not configured) or the payload's totals map is empty, the reported totals
exactly equal the local-store computation for the same user and window. -/
theorem c3_merge_policy_amended :
    (∀ (env : Env) (db : Db) (u cat : String) (s e : Int)
        (p : SummaryPayload), env.configured = true →
      env.summaryResp ⟨some u, s, e, some (pyInt cat)⟩ = some p →
      p.ok = true → p.totals ≠ [] →
      windowedCategoryTotal env db u cat s e
        = ((p.totals).lookup (toString (pyInt cat))).getD 0)
  ∧ (∀ (env : Env) (db : Db) (u cat : String) (s e : Int),
      fetch_totals_from_sheets env u s e (some (pyInt cat)) = none →
      windowedCategoryTotal env db u cat s e
        = get_total_for_category_in_range db u cat s e)
  ∧ (∀ (env : Env) (db : Db) (u cat : String) (s e : Int),
      fetch_totals_from_sheets env u s e (some (pyInt cat)) = some [] →
      windowedCategoryTotal env db u cat s e
        = get_total_for_category_in_range db u cat s e)
  ∧ (∀ (env : Env) (db : Db) (u : String) (s e : Int) (p : SummaryPayload),
      env.configured = true →
      env.summaryResp ⟨some u, s, e, none⟩ = some p →
      p.ok = true → p.totals ≠ [] →
      windowedAllTable env db u s e = format_totals_table p.totals)
  ∧ (∀ (env : Env) (db : Db) (u : String) (s e : Int),
      fetch_totals_from_sheets env u s e none = none →
      windowedAllTable env db u s e
        = format_totals_table (get_totals_all_categories_in_range db u s e))
  ∧ (∀ (env : Env) (db : Db) (u : String) (s e : Int),
      fetch_totals_from_sheets env u s e none = some [] →
      windowedAllTable env db u s e
        = format_totals_table
            (get_totals_all_categories_in_range db u s e)) := by
  have hfetch : ∀ (env : Env) (u : String) (s e : Int) (c : Option Int)
      (p : SummaryPayload), env.configured = true →
      env.summaryResp ⟨some u, s, e, c⟩ = some p → p.ok = true →
      fetch_totals_from_sheets env u s e c = some p.totals := by
    intro env u s e c p hc hr ho
    unfold fetch_totals_from_sheets
    rw [hc]
    simp only [if_true]
    rw [hr]
    simp [ho]
  refine ⟨?_, ?_, ?_, ?_, ?_, ?_⟩
  · intro env db u cat s e p hc hr ho hne
    unfold windowedCategoryTotal
    rw [hfetch env u s e (some (pyInt cat)) p hc hr ho]
    cases ht : p.totals with
    | nil => exact absurd ht hne
    | cons a l => simp [ht]
  · intro env db u cat s e hf
    unfold windowedCategoryTotal
    rw [hf]
  · intro env db u cat s e hf
    unfold windowedCategoryTotal
    rw [hf]
    simp
  · intro env db u s e p hc hr ho hne
    unfold windowedAllTable
    rw [hfetch env u s e none p hc hr ho]
    cases ht : p.totals with
    | nil => exact absurd ht hne
    | cons a l => simp [ht]
  · intro env db u s e hf
    unfold windowedAllTable
    rw [hf]
  · intro env db u s e hf
    unfold windowedAllTable
    rw [hf]
    simp

/-- C3 witness: the fallback clause applied with the unconfigured mirror —
the reported windowed category total equals the local-store sum. -/
theorem c3_merge_policy_amended_witness :
    windowedCategoryTotal envOff db3 "u5" "3" 1761973200 1764565200
      = get_total_for_category_in_range db3 "u5" "3" 1761973200 1764565200 :=
  c3_merge_policy_amended.2.1 envOff db3 "u5" "3" 1761973200 1764565200
    (by decide)

/-- C6 counterexample: with the mirror not configured, the zero-argument
summary reports a configuration-error text whose content is independent of
the local store — two databases whose local all-time totals differ ($10.00
vs $20.00) produce the same output — so its totals do not fall back to the
local-store computation as the claim states. -/
theorem c6_counterexample_no_local_fallback :
    (webhook envOff [⟨some "u6", "resumen", none⟩] db6a).sent
      = [Msg.text "u6" "⚠️ Falta GOOGLE_APPS_SCRIPT_URL en .env"]
  ∧ (webhook envOff [⟨some "u6", "resumen", none⟩] db6b).sent
      = (webhook envOff [⟨some "u6", "resumen", none⟩] db6a).sent
  ∧ ((get_totals_all_categories_in_range db6a "u6" 0 9999999999).map
      Prod.snd).sum = 1000
  ∧ ((get_totals_all_categories_in_range db6b "u6" 0 9999999999).map
      Prod.snd).sum = 2000
  ∧ decide ((1000 : Int) = (2000 : Int)) = false :=
  ⟨by decide, by decide, by decide, by decide, by decide⟩

/-- C6 amended: the zero-argument summary is sourced exclusively from the
mirror over the sentinel all-time window — on a good reply it renders the
mirror totals — and when the mirror is unreachable, errors, replies `ok:
false`, or is not configured, it reports an error text and never falls back
to the local store: its output is independent of the local database. -/
theorem c6_all_time_summary_amended :
    (∀ env : Env, env.configured = false →
      handle_resumen env = "⚠️ Falta GOOGLE_APPS_SCRIPT_URL en .env")
  ∧ (∀ env : Env, env.configured = true →
      env.summaryResp allTimeQuery = none →
      handle_resumen env = "⚠️ No pude generar el resumen: error")
  ∧ (∀ (env : Env) (p : SummaryPayload), env.configured = true →
      env.summaryResp allTimeQuery = some p → p.ok = false →
      handle_resumen env = "⚠️ Error leyendo resumen: not ok")
  ∧ (∀ (env : Env) (p : SummaryPayload), env.configured = true →
      env.summaryResp allTimeQuery = some p → p.ok = true →
      handle_resumen env = renderAllTime p.totals)
  ∧ (∀ (env : Env) (db db' : Db) (u : String) (loc : Locals),
      (resumenBranch env db u "resumen" loc).sent
        = (resumenBranch env db' u "resumen" loc).sent) := by
  refine ⟨?_, ?_, ?_, ?_, ?_⟩
  · intro env hc
    unfold handle_resumen
    rw [hc]
    simp
  · intro env hc hr
    unfold handle_resumen
    rw [hc, hr]
    simp
  · intro env p hc hr ho
    unfold handle_resumen
    rw [hc, hr]
    simp [ho]
  · intro env p hc hr ho
    unfold handle_resumen
    rw [hc, hr]
    simp [ho]
  · intro env db db' u loc
    rfl

/-- C6 witness: the not-configured clause applied at the concrete
unconfigured environment. -/
theorem c6_all_time_summary_amended_witness :
    handle_resumen envOff = "⚠️ Falta GOOGLE_APPS_SCRIPT_URL en .env" :=
  c6_all_time_summary_amended.1 envOff (by decide)

/-- C10: the zero-argument all-time summary queries the mirror with the
sentinel window and no user parameter (its result depends on the mirror only
through that user-less query), whereas every windowed summary fetch queries
with the requesting user's identifier; consequently, against the
spec-modelled mirror, adding a second user's transaction changes the first
user's plain-summary output while leaving the first user's windowed fetch
unchanged. -/
theorem c10_all_time_summary_no_user :
    allTimeQuery.user = none
  ∧ allTimeQuery.start_e = 0
  ∧ allTimeQuery.end_e = 9999999999
  ∧ (∀ env env' : Env, env.configured = env'.configured →
      env.summaryResp allTimeQuery = env'.summaryResp allTimeQuery →
      handle_resumen env = handle_resumen env')
  ∧ (∀ (env env' : Env) (u : String) (s e : Int) (c : Option Int),
      env.configured = env'.configured →
      env.summaryResp ⟨some u, s, e, c⟩ = env'.summaryResp ⟨some u, s, e, c⟩ →
      fetch_totals_from_sheets env u s e c
        = fetch_totals_from_sheets env' u s e c)
  ∧ decide (handle_resumen (envMirror rows1)
      = handle_resumen (envMirror rows2)) = false
  ∧ fetch_totals_from_sheets (envMirror rows1) "alice" 0 1000 none
      = fetch_totals_from_sheets (envMirror rows2) "alice" 0 1000 none
  ∧ rows2 = rows1
      ++ [⟨"bob", 700, 1, "Renta", "2020-01-01T00:00:00+00:00", 200⟩] := by
  refine ⟨rfl, rfl, rfl, ?_, ?_, by decide, by decide, rfl⟩
  · intro env env' h1 h2
    unfold handle_resumen
    rw [h1, h2]
  · intro env env' u s e c h1 h2
    unfold fetch_totals_from_sheets
    rw [h1, h2]

/-- C10 witness: the independence clause applied to two environments that
differ in notifier deliverability but agree on the all-time query. -/
theorem c10_all_time_summary_no_user_witness :
    handle_resumen envOff
      = handle_resumen { envOff with listDeliverable := false } :=
  c10_all_time_summary_no_user.2.2.2.1 envOff
    { envOff with listDeliverable := false } rfl rfl

/-- C9: every expense record written through the `awaiting_category`
completion path has a positive amount.  Every way the source writes a
session preserves the invariant that an `awaiting_category` session carries
a positive pending amount — lazy creation, reset, both flow-start triggers
and all four state branches — so the invariant holds in every session store
the router can reach; and under it the completion path only appends records
whose amount is the positive pending amount, so no path writes a record
with amount 0. -/
theorem c9_expense_amount_positive :
    (∀ (db : Db) (u : String), SessionInv db →
      SessionInv (get_session db u).2)
  ∧ (∀ (db : Db) (u : String), SessionInv db →
      SessionInv (reset_session db u))
  ∧ (∀ (db : Db) (u : String), SessionInv db →
      SessionInv (expenseTriggerBranch db u).db)
  ∧ (∀ (db : Db) (u : String), SessionInv db →
      SessionInv (incomeTriggerBranch db u).db)
  ∧ (∀ (env : Env) (db : Db) (u t : String), SessionInv db →
      SessionInv (awaitingAmountBranch env db u t).db)
  ∧ (∀ (db : Db) (u t : String), SessionInv db →
      SessionInv (awaitingIncomeAmountBranch db u t).db)
  ∧ (∀ (env : Env) (db : Db) (u t : String), SessionInv db →
      SessionInv (awaitingIncomeSourceBranch env db u t).db)
  ∧ (∀ (env : Env) (db : Db) (u low : String) (rid : Option String),
      SessionInv db →
      SessionInv (awaitingCategoryBranch env db u low rid).db)
  ∧ (∀ (env : Env) (db : Db) (u low : String) (rid : Option String)
        (s : SessionRow), SessionInv db →
      db.sessions.lookup u = some s → s.state = "awaiting_category" →
      ∀ r ∈ (awaitingCategoryBranch env db u low rid).db.expenses,
        r ∈ db.expenses ∨ 0 < r.amount) := by
  refine ⟨?_, ?_, ?_, ?_, ?_, ?_, ?_, ?_, ?_⟩
  · exact fun db u h => sessionInv_get db u h
  · exact fun db u h => sessionInv_reset db u h
  · exact fun db u h => sessionInv_set db u "awaiting_amount" none
      (fun hst => absurd hst (by decide)) h
  · exact fun db u h => sessionInv_set db u "awaiting_income_amount" none
      (fun hst => absurd hst (by decide)) h
  · intro env db u t h
    unfold awaitingAmountBranch
    cases hna : normalize_amount t with
    | none => exact h
    | some a =>
      dsimp only
      split
      · exact h
      · rename_i hpos
        exact sessionInv_set db u "awaiting_category" (some a)
          (fun _ => lt_of_not_le hpos) h
  · intro db u t h
    unfold awaitingIncomeAmountBranch
    cases hna : normalize_amount t with
    | none => exact h
    | some a =>
      dsimp only
      split
      · exact h
      · exact sessionInv_set db u "awaiting_income_source" (some a)
          (fun hst =>
            absurd hst
              ((by decide) :
                ¬("awaiting_income_source" = "awaiting_category"))) h
  · intro env db u t h
    unfold awaitingIncomeSourceBranch
    dsimp only
    split
    · exact h
    · exact sessionInv_reset _ u
        (sessionInv_save_deposit _ _ _ _ _ _ (sessionInv_get db u h))
  · intro env db u low rid h
    unfold awaitingCategoryBranch
    dsimp only
    split
    · exact sessionInv_reset _ u
        (sessionInv_save_expense _ _ _ _ _ _ _ (sessionInv_get db u h))
    · exact h
  · intro env db u low rid s h hlk hst r hr
    unfold awaitingCategoryBranch at hr
    dsimp only at hr
    split at hr
    · rename_i cid hcid
      unfold get_session at hr
      rw [hlk] at hr
      simp only [reset_session, set_session, save_expense] at hr
      simp only [List.mem_append, List.mem_singleton] at hr
      rcases hr with hr | hr
      · exact Or.inl hr
      · right
        rw [hr]
        exact h (u, s) (mem_of_lookup_eq_some hlk) hst
    · exact Or.inl hr

/-- C9 witness: the completion clause applied at a concrete
`awaiting_category` session with pending $12.50 and a typed "3": the single
appended record carries the positive pending amount. -/
theorem c9_expense_amount_positive_witness :
    SessionInv db4
  ∧ (awaitingCategoryBranch envOff db4 "444" "3" none).db.expenses
      = [⟨"444", 1250, 3, "Medical bill", "2025-11-15T15:00:00+00:00",
          1763218800⟩]
  ∧ (0 : Int)
      < (⟨"444", 1250, 3, "Medical bill", "2025-11-15T15:00:00+00:00",
          1763218800⟩ : ExpenseRow).amount := by
  refine ⟨by decide, by decide, ?_⟩
  have h := (c9_expense_amount_positive.2.2.2.2.2.2.2.2 envOff db4 "444" "3"
    none ⟨"awaiting_category", some 1250⟩ (by decide) (by decide) rfl)
    ⟨"444", 1250, 3, "Medical bill", "2025-11-15T15:00:00+00:00",
      1763218800⟩ (by decide)
  exact h.resolve_left (by decide)

end App
